import Mathlib

/-!
Verification development for the english-speech-to-text repository.

This file gives a shallow embedding of the two core components:

* `StateManager` (src/js/modules/stateManager.js): the reactive store —
  a path-addressable JavaScript object tree with `setState` / `getState`
  and the typed recognition-section / text-history operations.
* `SpeechRecognitionManager` (src/js/modules/speechRecognition.js): the
  session lifecycle controller — start/stop/restart, watchdog, error
  policy, result fencing and de-duplication.

Modelling conventions:

* The program is callback-driven JavaScript. Each handler or method is
  embedded as a pure function `... → SessionState × List Effect` where
  `Effect` records the observable actions the body performs in order:
  store events it emits, jQuery events it triggers, engine calls, and
  `setTimeout` / `setInterval` registrations (`Effect.schedule`).
  A scheduled callback body is embedded as its own `...TimeoutFire`
  function; firing it later is applying that function to the then
  current state, which captures the interleaving of pending timers.
* Machine integers: all times are `Int` milliseconds (`Date.now()`
  values and differences are exact in JavaScript doubles at this
  magnitude), counters are `Nat`.
* Environment-generated values (current time `Date.now()`, fresh ids
  from `Utils.generateId`) are explicit parameters.
* `stateManager.updateRecognitionState` (an `Object.assign` on the
  recognition section followed by a `recognitionStateChanged` emit) is
  inlined at each call site as a record update plus a
  `Effect.recognitionStateChanged` effect carrying the post-merge
  section, exactly as the store delivers it.
-/

namespace SpeechApp

/-! ## JavaScript value trees (`StateManager.state`)

`setState` / `getState` traverse an arbitrary JavaScript object by a
dot-separated path, so they are modelled over a generic value tree.
Objects are association lists of own properties (the prototype chain is
not modelled; the paths the application uses never touch inherited
keys). `undefined` is JavaScript `undefined`. -/

inductive JsValue where
  | undefined : JsValue
  | null : JsValue
  | bool (b : Bool) : JsValue
  | num (n : Int) : JsValue
  | str (s : String) : JsValue
  | obj (fields : List (String × JsValue)) : JsValue

/-- Own-property lookup on an object's field list. -/
def jsGetField : List (String × JsValue) → String → Option JsValue
  | [], _ => none
  | (k, v) :: rest, key => if k = key then some v else jsGetField rest key

/-- Property assignment on an object's field list (replace or append). -/
def jsSetField : List (String × JsValue) → String → JsValue → List (String × JsValue)
  | [], key, v => [(key, v)]
  | (k, w) :: rest, key, v =>
      if k = key then (k, v) :: rest else (k, w) :: jsSetField rest key v

/-- Events emitted by the store's generic mutation path. -/
inductive StoreEvt where
  | stateChanged (path : String) (oldValue newValue : JsValue)

/-- Accumulator loop for `splitDot`. -/
def splitDotGo : List Char → List Char → List String
  | [], acc => [String.mk acc.reverse]
  | c :: rest, acc =>
      if c = '.' then String.mk acc.reverse :: splitDotGo rest []
      else splitDotGo rest (c :: acc)

/-- JavaScript `path.split('.')`: split at every dot, keeping empty
segments (`""` splits to `[""]`), as both store methods do with their
`path.split('.')`. -/
def splitDot (s : String) : List String := splitDotGo s.data []

/-- Core of `StateManager.setState` (stateManager.js:212-240): walk the
split path, creating `{}` for absent intermediate segments; return the
new tree together with the previous leaf value. `none` models an
internal `TypeError` (walking with `in` into a primitive / `null`, or
assigning a property on a primitive — the methods are strict-mode code),
which the source swallows in its `catch`. A failing walk never mutates:
containers are only created along suffixes where every segment is
absent, and such a walk cannot fail afterwards. -/
def setStateGo : List String → JsValue → JsValue → Option (JsValue × JsValue)
  | [key], value, .obj fields =>
      some (.obj (jsSetField fields key value), (jsGetField fields key).getD .undefined)
  | [_], _, _ => none
  | key :: seg :: rest, value, .obj fields =>
      (match jsGetField fields key with
       | some child =>
           (setStateGo (seg :: rest) value child).map
             (fun p => (JsValue.obj (jsSetField fields key p.1), p.2))
       | none =>
           (setStateGo (seg :: rest) value (.obj [])).map
             (fun p => (JsValue.obj (jsSetField fields key p.1), p.2)))
  | _ :: _ :: _, _, _ => none
  | [], _, _ => none

/-- `StateManager.setState(path, value)`: on success emit
`stateChanged {path, oldValue, newValue}`; an internal error is
swallowed, leaving the tree unchanged and emitting nothing. The
function is total: the caller never sees an exception. -/
def setState (path : String) (value : JsValue) (t : JsValue) :
    JsValue × List StoreEvt :=
  match setStateGo (splitDot path) value t with
  | some (t', old) => (t', [StoreEvt.stateChanged path old value])
  | none => (t, [])

/-- Path walk of `StateManager.getState` (stateManager.js:250-268): an
absent key, a `null`/`undefined` node, or a primitive node (where `in`
throws and the `catch` returns `undefined`) all yield `undefined`. -/
def getStateGo : List String → JsValue → JsValue
  | [], v => v
  | key :: rest, .obj fields =>
      (match jsGetField fields key with
       | some v => getStateGo rest v
       | none => .undefined)
  | _ :: _, _ => .undefined

/-- `StateManager.getState(path)`; an empty path returns the whole tree
(the source's `if (!path) return this.state`). -/
def getState (path : String) (t : JsValue) : JsValue :=
  if path = "" then t else getStateGo (splitDot path) t

/-- Characterisation of the paths on which `setStateGo` succeeds: every
segment that currently resolves must resolve to an object; once a
segment is absent the rest is created. Defined independently of
`setStateGo` so success can be stated structurally. -/
def pathSettable : List String → JsValue → Bool
  | [_], .obj _ => true
  | [_], _ => false
  | key :: seg :: rest, .obj fields =>
      (match jsGetField fields key with
       | some child => pathSettable (seg :: rest) child
       | none => true)
  | _ :: _ :: _, _ => false
  | [], _ => false

/-! ## Typed data model of the controller and the recognition section -/

/-- The `recognition` section of the store's state tree
(stateManager.js:59-69), as published to subscribers. The
`recognitionInstance` reference and the store-side `lastResultTime`
field (initialised to 0 and never written by the controller) are not
modelled. Session identifiers are `Option Nat`: `none` is the initial
`null`, fresh ids are environment-supplied naturals. -/
structure RecognitionSection where
  isActive : Bool
  isListening : Bool
  sessionId : Option Nat
  currentText : String
  interimText : String
  finalText : String
  errorCount : Nat
deriving DecidableEq

/-- A text-history entry (stateManager.js:312-316): environment-fresh
`id`, `Date.now()` timestamp, and the `textData` fields the controller
passes (`originalText`, `language`). -/
structure HistoryEntry where
  id : Nat
  timestamp : Int
  originalText : String
  language : String
deriving DecidableEq

/-- An error record as built by `StateManager.setError`
(stateManager.js:338-351); the environment-generated `id`/`timestamp`
and the looked-up user-facing `message` are not modelled. -/
structure ErrorRecord where
  category : String
  code : String
  details : Option String
deriving DecidableEq

/-- Bodies of the `setTimeout` callbacks the controller registers.
Firing one later is applying the matching `...TimeoutFire` /
`...Fire` function to the state current at that moment. -/
inductive SchedAct where
  /-- body of the `setTimeout` inside `start()` (speechRecognition.js:510-529) -/
  | startResume
  /-- `setTimeout(() => this.start(), restartDelay)` in `changeLanguage` -/
  | callStart
  /-- the guarded `start()` scheduled by the auto-continue path of `onend` -/
  | callStartIfNotRecognizing
  /-- body of the `setTimeout` inside `safeRestart` (speechRecognition.js:597-608),
      with the captured `currentLanguage` -/
  | safeRestartResume (lang : String)
  /-- dedup-window expiry: `this.processedTexts.delete(trimmedText)` -/
  | deleteProcessed (t : String)
  /-- a delayed `$(document).trigger('clearInterimText')` -/
  | clearInterim
deriving DecidableEq

/-- Observable actions performed by a handler body, in program order. -/
inductive Effect where
  /-- `recognitionStateChanged` store event carrying the post-merge section -/
  | recognitionStateChanged (r : RecognitionSection)
  /-- `$(document).trigger('interimTextRecognized', {text})` -/
  | interimTextRecognized (text : String)
  /-- `$(document).trigger('textRecognized', {text})` -/
  | textRecognized (text : String)
  /-- `textHistoryChanged` store event carrying the new entry -/
  | textHistoryChanged (e : HistoryEntry)
  /-- an immediate `$(document).trigger('clearInterimText')` -/
  | clearInterimText
  /-- `error` store event from `StateManager.setError` -/
  | errorEvt (rec : ErrorRecord)
  /-- `this.recognition.stop()` on the engine handle -/
  | engineStop
  /-- `this.recognition.start()` with the language set on the handle -/
  | engineStart (lang : String)
  /-- a `setTimeout` registration (delay in ms, callback body) -/
  | schedule (delay : Nat) (act : SchedAct)
deriving DecidableEq

/-- The combined state the claims range over: the
`SpeechRecognitionManager`'s own fields (speechRecognition.js:26-54)
together with the store state it reads and writes (the typed
recognition section, the text history, `config.language`,
`config.maxTextLines`, `system.lastError`). `engineSupported` models
the availability of `window.SpeechRecognition` in the environment;
`hasRecognition` is `this.recognition !== null`; `recognitionLang` is
the `lang` property set on the engine handle; `hasWatchdog` is
`this.watchdogTimer !== null`. -/
structure SessionState where
  engineSupported : Bool
  hasRecognition : Bool
  recognitionLang : String
  isRecognizing : Bool
  sessionId : Option Nat
  hasWatchdog : Bool
  lastResultTime : Int
  sessionStartTime : Int
  errorCount : Nat
  processedTexts : List String
  manualStop : Bool
  configLanguage : String
  maxTextLines : Nat
  recog : RecognitionSection
  textHistory : List HistoryEntry
  lastError : Option ErrorRecord
deriving DecidableEq

/-- The controller's configuration (`APP_CONFIG.SPEECH_CONFIG`,
config.js): thresholds are `Int` ms to compare exactly against
`Date.now()` differences, delays and counts are `Nat`. The engine
options `continuous` / `interimResults` / `maxAlternatives` are set on
the handle and never read back, so they are not modelled. -/
structure SpeechConfig where
  deadTime : Int
  maxSessionTime : Int
  watchdogInterval : Nat
  maxErrorCount : Nat
  restartDelay : Nat
  duplicateCheckTimeout : Nat
deriving DecidableEq

/-- The shipped configuration values (config.js `SPEECH_CONFIG`). -/
def defaultSpeechConfig : SpeechConfig :=
  { deadTime := 5000, maxSessionTime := 60000, watchdogInterval := 1000,
    maxErrorCount := 10, restartDelay := 100, duplicateCheckTimeout := 1500 }

/-! ## Utilities (src/js/utils/utils.js) -/

/-- The characters matched by `\s` that the application's inputs can
contain (ASCII whitespace; the Unicode space classes are irrelevant to
the claims and omitted). -/
def jsWhitespace (c : Char) : Bool :=
  c = ' ' ∨ c = '\t' ∨ c = '\n' ∨ c = '\r' ∨ c = Char.ofNat 11 ∨ c = Char.ofNat 12

/-- `Utils.trimText` (utils.js:121-123):
`text.replace(/^\s+|\s+$/g, '')` — strip leading and trailing
whitespace. -/
def trimText (s : String) : String :=
  String.mk (((s.data.dropWhile jsWhitespace).reverse.dropWhile jsWhitespace).reverse)

/-! ## StateManager typed operations used by the controller -/

/-- `StateManager.addTextHistory` (stateManager.js:310-327): build the
entry from a fresh id, `Date.now()` and the passed `textData`; `unshift`
it (newest first); when `config.maxTextLines` is positive and the new
length exceeds it, `splice(maxLines)` keeps the first `maxLines`
entries; always emit `textHistoryChanged` with the new entry. -/
def addTextHistory (fid : Nat) (now : Int) (originalText language : String)
    (maxLines : Nat) (history : List HistoryEntry) :
    List HistoryEntry × List Effect :=
  let newEntry : HistoryEntry :=
    { id := fid, timestamp := now, originalText := originalText, language := language }
  let h := newEntry :: history
  let h := if 0 < maxLines ∧ maxLines < h.length then h.take maxLines else h
  (h, [Effect.textHistoryChanged newEntry])

/-! ## SpeechRecognitionManager (src/js/modules/speechRecognition.js) -/

/-- `getState('config.language') || 'en-US'`: the stored language with
the JavaScript falsy fallback (an unset language surfaces as the empty
string in the typed model). -/
def langOrDefault (s : SessionState) : String :=
  if s.configLanguage = "" then "en-US" else s.configLanguage

/-- `initializeRecognition` (speechRecognition.js:63-83): when the
environment lacks `SpeechRecognition` (or constructing it throws),
record a `NOT_SUPPORTED` error and report failure; otherwise create a
fresh engine handle and run `setupRecognitionConfig`, which applies
`config.language || 'en-US'` to the handle. -/
def initializeRecognition (s : SessionState) :
    SessionState × List Effect × Bool :=
  if s.engineSupported = false then
    let er : ErrorRecord :=
      { category := "SPEECH_RECOGNITION", code := "NOT_SUPPORTED", details := none }
    ({ s with lastError := some er }, [Effect.errorEvt er], false)
  else
    let s1 := { s with hasRecognition := true }
    ({ s1 with recognitionLang := langOrDefault s1 }, [], true)

/-- `resetInternalState` (speechRecognition.js:428-431):
`this.isRecognizing = false; this.stopWatchdog()`. Note that it leaves
`manualStop` untouched. -/
def resetInternalState (s : SessionState) : SessionState :=
  { s with isRecognizing := false, hasWatchdog := false }

/-- `resetStateManagerState` (speechRecognition.js:438-450): publish
`{isActive:false, isListening:false}`, additionally clearing
`currentText`/`interimText` when `clearTexts`. -/
def resetStateManagerState (clearTexts : Bool) (s : SessionState) :
    SessionState × List Effect :=
  let recog1 :=
    if clearTexts then
      { s.recog with isActive := false, isListening := false,
                     currentText := "", interimText := "" }
    else
      { s.recog with isActive := false, isListening := false }
  ({ s with recog := recog1 }, [Effect.recognitionStateChanged recog1])

/-- `clearInterimTextReliably` (speechRecognition.js:457-466): one
immediate `clearInterimText` trigger plus delayed repeats at 10 and
50 ms. -/
def clearInterimReliablyEffects : List Effect :=
  [Effect.clearInterimText,
   Effect.schedule 10 SchedAct.clearInterim,
   Effect.schedule 50 SchedAct.clearInterim]

/-- `performFullReset` (speechRecognition.js:474-479):
`resetInternalState`, `forceStopRecognition` (an engine `stop()` when a
handle exists; a throwing stop is ignored), `resetStateManagerState`,
`clearInterimTextReliably`. -/
def performFullReset (clearTexts : Bool) (s : SessionState) :
    SessionState × List Effect :=
  let s1 := resetInternalState s
  let e0 : List Effect := if s1.hasRecognition then [Effect.engineStop] else []
  let r := resetStateManagerState clearTexts s1
  (r.1, e0 ++ r.2 ++ clearInterimReliablyEffects)

/-- `stop` (speechRecognition.js:548-574): without an engine handle it
returns success immediately; otherwise set the manual-stop flag, run
`performFullReset(true)` and register the extra delayed interim clears
at 100 and 200 ms. -/
def stop (s : SessionState) : SessionState × List Effect × Bool :=
  if s.hasRecognition = false then (s, [], true)
  else
    let r := performFullReset true { s with manualStop := true }
    (r.1,
     r.2 ++ [Effect.schedule 100 SchedAct.clearInterim,
             Effect.schedule 200 SchedAct.clearInterim],
     true)

/-- The duplicate-start guard plus restart scheduling of `start`
(speechRecognition.js:498-531), shared by both entry paths of
`start`. -/
def startGo (cfg : SpeechConfig) (s : SessionState) :
    SessionState × List Effect × Bool :=
  if s.isRecognizing then (s, [], true)
  else
    let e1 : List Effect := if s.hasRecognition then [Effect.engineStop] else []
    let s1 := resetInternalState s
    (s1, e1 ++ [Effect.schedule cfg.restartDelay SchedAct.startResume], true)

/-- `start` (speechRecognition.js:488-539): re-initialise a missing
engine handle first (reporting `NOT_SUPPORTED` twice on failure, as the
source does), then the guarded restart scheduling. -/
def start (cfg : SpeechConfig) (s : SessionState) :
    SessionState × List Effect × Bool :=
  if s.hasRecognition = false then
    let ir := initializeRecognition s
    if ir.2.2 = false then
      let er : ErrorRecord :=
        { category := "SPEECH_RECOGNITION", code := "NOT_SUPPORTED", details := none }
      ({ ir.1 with lastError := some er }, ir.2.1 ++ [Effect.errorEvt er], false)
    else startGo cfg ir.1
  else startGo cfg s

/-- Body of the `setTimeout` registered by `start`
(speechRecognition.js:510-529): skip when recognition already began;
otherwise apply `config.language || 'en-US'` to the handle and call the
engine's `start()`. A missing handle makes the property access throw:
the inner `catch` then runs `resetInternalState` and records
`ABORTED` (the thrown message text is not modelled). -/
def startTimeoutFire (s : SessionState) : SessionState × List Effect :=
  if s.isRecognizing then (s, [])
  else if s.hasRecognition then
    let language := langOrDefault s
    ({ s with recognitionLang := language }, [Effect.engineStart language])
  else
    let er : ErrorRecord :=
      { category := "SPEECH_RECOGNITION", code := "ABORTED", details := none }
    ({ resetInternalState s with lastError := some er }, [Effect.errorEvt er])

/-- `safeRestart` (speechRecognition.js:582-612): capture
`config.language`, force a full reset, zero the error counter and
publish `{errorCount: 0}`, then schedule the re-initialise / re-apply
language / `start()` body after `restartDelay`. -/
def safeRestart (cfg : SpeechConfig) (s : SessionState) :
    SessionState × List Effect :=
  let currentLanguage := s.configLanguage
  let r1 := performFullReset true s
  let recog1 := { r1.1.recog with errorCount := 0 }
  let s1 := { r1.1 with errorCount := 0, recog := recog1 }
  (s1, r1.2 ++
    [Effect.recognitionStateChanged recog1,
     Effect.schedule cfg.restartDelay (SchedAct.safeRestartResume currentLanguage)])

/-- Body of the `setTimeout` registered by `safeRestart`
(speechRecognition.js:597-608): `initializeRecognition()`, re-apply the
captured language to the handle, `start()`. -/
def safeRestartTimeoutFire (cfg : SpeechConfig) (lang : String) (s : SessionState) :
    SessionState × List Effect :=
  let r0 := initializeRecognition s
  let s1 :=
    if r0.1.hasRecognition then { r0.1 with recognitionLang := lang } else r0.1
  let r1 := start cfg s1
  (r1.1, r0.2.1 ++ r1.2.1)

/-- One tick of the watchdog interval (speechRecognition.js:379-397):
nothing while not recognizing; otherwise compare the elapsed times
against `deadTime` / `maxSessionTime` and trigger `safeRestart` on a
timeout. -/
def watchdogTick (cfg : SpeechConfig) (now : Int) (s : SessionState) :
    SessionState × List Effect :=
  if s.isRecognizing = false then (s, [])
  else
    let timeSinceLastResult := now - s.lastResultTime
    let timeSinceSessionStart := now - s.sessionStartTime
    let isResultTimeout := timeSinceLastResult > cfg.deadTime
    let isSessionTimeout := timeSinceSessionStart > cfg.maxSessionTime
    if isResultTimeout ∨ isSessionTimeout then safeRestart cfg s else (s, [])

/-- `changeLanguage` (speechRecognition.js:622-649): when recognizing,
`stop()` first; set the new language on the engine handle; when it was
recognizing, schedule a plain `start()` after `restartDelay`. -/
def changeLanguage (cfg : SpeechConfig) (language : String) (s : SessionState) :
    SessionState × List Effect × Bool :=
  let wasRecognizing := s.isRecognizing
  let r1 :=
    if wasRecognizing then (let r := stop s; (r.1, r.2.1)) else (s, ([] : List Effect))
  let s1 :=
    if r1.1.hasRecognition then { r1.1 with recognitionLang := language } else r1.1
  let e2 : List Effect :=
    if wasRecognizing then [Effect.schedule cfg.restartDelay SchedAct.callStart] else []
  (s1, r1.2 ++ e2, true)

/-- `mapErrorCode` (speechRecognition.js:346-357). -/
def mapErrorCode (error : String) : String :=
  if error = "not-allowed" then "NOT_ALLOWED"
  else if error = "no-speech" then "NO_SPEECH"
  else if error = "aborted" then "ABORTED"
  else if error = "audio-capture" then "AUDIO_CAPTURE"
  else if error = "network" then "NETWORK"
  else if error = "timeout" then "TIMEOUT"
  else "UNKNOWN"

/-- `handleError` (speechRecognition.js:311-337): increment the error
counter and publish it; on a critical native code record the fatal
error and `stop()`; otherwise `stop()` once the counter reaches
`maxErrorCount`; otherwise take no further action. -/
def handleError (cfg : SpeechConfig) (err : String) (s : SessionState) :
    SessionState × List Effect :=
  let c := s.errorCount + 1
  let recog1 := { s.recog with errorCount := c }
  let s1 := { s with errorCount := c, recog := recog1 }
  let e0 : List Effect := [Effect.recognitionStateChanged recog1]
  if err = "not-allowed" ∨ err = "service-not-allowed" then
    let er : ErrorRecord :=
      { category := "SPEECH_RECOGNITION", code := mapErrorCode err, details := some err }
    let r := stop { s1 with lastError := some er }
    (r.1, e0 ++ [Effect.errorEvt er] ++ r.2.1)
  else if cfg.maxErrorCount ≤ c then
    let r := stop s1
    (r.1, e0 ++ r.2.1)
  else (s1, e0)

/-- The `onstart` engine callback (speechRecognition.js:112-127): fresh
session id, fresh timestamps, error counter zeroed, activation
published, watchdog started. -/
def onStart (sid : Nat) (now : Int) (s : SessionState) :
    SessionState × List Effect :=
  let s1 := { s with isRecognizing := true, sessionId := some sid,
                     lastResultTime := now, sessionStartTime := now,
                     errorCount := 0 }
  let recog1 := { s1.recog with isActive := true, isListening := true,
                                sessionId := some sid }
  ({ s1 with recog := recog1, hasWatchdog := true },
   [Effect.recognitionStateChanged recog1])

/-- The `onend` engine callback (speechRecognition.js:130-159): stop the
watchdog; without the manual-stop flag, keep text state, publish
`{isActive:true, isListening:false}` and schedule the guarded
auto-continue `start()`; with it, perform the full reset and clear the
interim display. Either way the manual-stop flag ends cleared. -/
def onEnd (cfg : SpeechConfig) (s : SessionState) : SessionState × List Effect :=
  let s1 := { s with isRecognizing := false, hasWatchdog := false }
  if s1.manualStop = false then
    let recog1 := { s1.recog with isActive := true, isListening := false }
    ({ s1 with recog := recog1, manualStop := false },
     [Effect.recognitionStateChanged recog1,
      Effect.schedule cfg.restartDelay SchedAct.callStartIfNotRecognizing])
  else
    let s2 := resetInternalState s1
    let r := resetStateManagerState true s2
    ({ r.1 with manualStop := false }, r.2 ++ [Effect.clearInterimText])

/-- The dedup-window expiry callback registered by
`processFinalResult`: `this.processedTexts.delete(trimmedText)`. -/
def deleteProcessedFire (t : String) (s : SessionState) : SessionState :=
  { s with processedTexts := s.processedTexts.erase t }

/-- `processFinalResult` (speechRecognition.js:266-301): trim; drop an
empty result; drop silently (no mutation, no event) a text already in
the dedup window; otherwise remember it, schedule its expiry after
`duplicateCheckTimeout`, append the history entry, publish
`{finalText, currentText}` and notify the UI. -/
def processFinalResult (cfg : SpeechConfig) (now : Int) (fid : Nat)
    (text : String) (s : SessionState) : SessionState × List Effect :=
  let trimmedText := trimText text
  if trimmedText = "" then (s, [])
  else if trimmedText ∈ s.processedTexts then (s, [])
  else
    let s1 := { s with processedTexts := trimmedText :: s.processedTexts }
    let hr := addTextHistory fid now trimmedText s1.configLanguage
                s1.maxTextLines s1.textHistory
    let recog1 := { s1.recog with finalText := trimmedText,
                                  currentText := trimmedText }
    let s2 := { s1 with textHistory := hr.1, recog := recog1 }
    (s2,
     Effect.schedule cfg.duplicateCheckTimeout (SchedAct.deleteProcessed trimmedText)
       :: hr.2
       ++ [Effect.recognitionStateChanged recog1, Effect.textRecognized trimmedText])

/-- One item of a `SpeechRecognitionEvent` result list (alternative 0's
transcript and the `isFinal` flag). -/
structure ResultItem where
  transcript : String
  isFinal : Bool
deriving DecidableEq

/-- The interim-transcript accumulation of `handleResult`'s loop
(speechRecognition.js:221-230). -/
def interimTranscriptOf (items : List ResultItem) : String :=
  items.foldl (fun acc it => if it.isFinal then acc else acc ++ it.transcript) ""

/-- The final-transcript accumulation of `handleResult`'s loop. -/
def finalTranscriptOf (items : List ResultItem) : String :=
  items.foldl (fun acc it => if it.isFinal then acc ++ it.transcript else acc) ""

/-- `handleResult` (speechRecognition.js:212-256) with the session
capture made explicit. The source captures `this.sessionId` on entry,
refreshes `this.lastResultTime`, accumulates the transcripts, and only
then re-checks the captured id against `this.sessionId` before mutating
any state. `captured` is that captured identifier: making it a
parameter lets a delivery that races a restart (the interleaving the
check defends against, per the watchdog/restart timers) be expressed;
`handleResult` instantiates it with the current id. -/
def handleResultCore (cfg : SpeechConfig) (captured : Option Nat)
    (items : List ResultItem) (now : Int) (fid : Nat) (s : SessionState) :
    SessionState × List Effect :=
  let s1 := { s with lastResultTime := now }
  let interimTranscript := interimTranscriptOf items
  let finalTranscript := finalTranscriptOf items
  if captured ≠ s1.sessionId then (s1, [])
  else
    let r2 :=
      if interimTranscript = "" then (s1, ([] : List Effect))
      else
        let recog1 :=
          { s1.recog with
              interimText := interimTranscript,
              currentText := finalTranscript ++ interimTranscript }
        ({ s1 with recog := recog1 },
         [Effect.recognitionStateChanged recog1,
          Effect.interimTextRecognized interimTranscript])
    if finalTranscript = "" then r2
    else
      let r3 := processFinalResult cfg now fid finalTranscript r2.1
      (r3.1, r2.2 ++ r3.2)

/-- The `onresult` engine callback as the source runs it: the captured
session identifier is the one current at entry. -/
def handleResult (cfg : SpeechConfig) (items : List ResultItem) (now : Int)
    (fid : Nat) (s : SessionState) : SessionState × List Effect :=
  handleResultCore cfg s.sessionId items now fid s

/-- Whether a scheduled callback would (possibly conditionally) call
`start()` — used to state that no auto-restart is pending. -/
def isStartAct : SchedAct → Bool
  | .startResume => true
  | .callStart => true
  | .callStartIfNotRecognizing => true
  | .safeRestartResume _ => true
  | .deleteProcessed _ => false
  | .clearInterim => false

/-- Whether an effect list registers any callback that can restart the
engine. -/
def schedulesStart (effs : List Effect) : Bool :=
  effs.any fun e =>
    match e with
    | .schedule _ a => isStartAct a
    | _ => false

/-! ## Concrete states used to instantiate the theorems -/

/-- The recognition section as initialised by the store
(stateManager.js:59-69). -/
def initialRecognitionSection : RecognitionSection :=
  { isActive := false, isListening := false, sessionId := none,
    currentText := "", interimText := "", finalText := "", errorCount := 0 }

/-- The controller after construction in a supporting browser, before
any `start()`: engine handle acquired, idle, shipped configuration
values in the store. -/
def idleState : SessionState :=
  { engineSupported := true, hasRecognition := true, recognitionLang := "en-US",
    isRecognizing := false, sessionId := none, hasWatchdog := false,
    lastResultTime := 0, sessionStartTime := 0, errorCount := 0,
    processedTexts := [], manualStop := false, configLanguage := "en-US",
    maxTextLines := 50, recog := initialRecognitionSection,
    textHistory := [], lastError := none }

/-- The controller right after a successful `onstart` at t = 0 with
session id 1. -/
def activeState : SessionState :=
  { idleState with
      isRecognizing := true, sessionId := some 1, hasWatchdog := true,
      recog := { initialRecognitionSection with
                   isActive := true, isListening := true, sessionId := some 1 } }

/-- An active session that has accumulated text and transient errors. -/
def listeningState : SessionState :=
  { activeState with
      errorCount := 2,
      recog := { activeState.recog with
                   currentText := "hello", interimText := "hi", errorCount := 2 } }

/-- An idle state in which a previous `stop()` left the manual-stop flag
set (its engine `onend` never fired, e.g. the engine was not running). -/
def manualStopState : SessionState :=
  { idleState with manualStop := true }

/-! ## Helper lemmas -/

/-- `processFinalResult` never touches the internal watchdog
timestamp. -/
lemma processFinalResult_lastResultTime (cfg : SpeechConfig) (now : Int)
    (fid : Nat) (text : String) (s : SessionState) :
    (processFinalResult cfg now fid text s).1.lastResultTime = s.lastResultTime := by
  simp only [processFinalResult]
  split
  · rfl
  · split
    · rfl
    · rfl

/-! ## Claim theorems -/

/-- Claim C1 (session fencing): a result callback whose captured session
identifier differs from the controller's current session identifier at
the fencing check mutates nothing beyond the internal liveness
timestamp: the published recognition section (in particular
`currentText`, `interimText`, `finalText`), the text history and the
dedup window are untouched and no event of any kind is emitted. -/
theorem handleResult_fencing (cfg : SpeechConfig) (captured : Option Nat)
    (items : List ResultItem) (now : Int) (fid : Nat) (s : SessionState)
    (hne : captured ≠ s.sessionId) :
    handleResultCore cfg captured items now fid s =
      ({ s with lastResultTime := now }, []) := by
  simp only [handleResultCore]
  rw [if_pos]
  exact hne

/-- Witness for C1: a concrete stale delivery (captured id `some 0`,
current id `none`) is discarded whole. -/
theorem handleResult_fencing_witness :
    (some 0 ≠ idleState.sessionId) ∧
    handleResultCore defaultSpeechConfig (some 0)
        [{ transcript := "hello", isFinal := true }] 42 7 idleState =
      ({ idleState with lastResultTime := 42 }, []) :=
  ⟨by decide,
   handleResult_fencing defaultSpeechConfig (some 0)
     [{ transcript := "hello", isFinal := true }] 42 7 idleState (by decide)⟩

/-- Claim C3 (dedup idempotence): a nonempty trimmed finalized text not
currently in the dedup window is processed once — it enters the window
with an expiry scheduled after `duplicateCheckTimeout`, exactly one
history entry is created and a `textRecognized` notification fires —
and, while it remains in the window (i.e. within
`duplicateCheckTimeout` ms, before the scheduled
`deleteProcessed` fires), submitting the same text again returns the
state completely unchanged and emits no event. -/
theorem processFinalResult_dedup (cfg : SpeechConfig) (now now2 : Int)
    (fid fid2 : Nat) (text : String) (s : SessionState)
    (hne : trimText text ≠ "")
    (hmem : trimText text ∉ s.processedTexts)
    (hcap : s.maxTextLines = 0 ∨ s.textHistory.length + 1 ≤ s.maxTextLines) :
    (processFinalResult cfg now fid text s).1.textHistory =
      ({ id := fid, timestamp := now, originalText := trimText text,
         language := s.configLanguage } : HistoryEntry) :: s.textHistory ∧
    (processFinalResult cfg now fid text s).1.processedTexts =
      trimText text :: s.processedTexts ∧
    Effect.schedule cfg.duplicateCheckTimeout
        (SchedAct.deleteProcessed (trimText text)) ∈
      (processFinalResult cfg now fid text s).2 ∧
    Effect.textRecognized (trimText text) ∈
      (processFinalResult cfg now fid text s).2 ∧
    processFinalResult cfg now2 fid2 text
        (processFinalResult cfg now fid text s).1 =
      ((processFinalResult cfg now fid text s).1, []) := by
  have hfull : ¬ (0 < s.maxTextLines ∧
      s.maxTextLines < s.textHistory.length + 1) := by
    rcases hcap with h0 | hle
    · rw [h0]; simp
    · exact fun h => absurd h.2 (not_lt.mpr hle)
  refine ⟨?_, ?_, ?_, ?_, ?_⟩ <;>
    simp [processFinalResult, addTextHistory, hne, hmem, hfull]

/-- Witness for C3 (Scenario B): "hello world" processed at t = 0, then
again at t = 200 with the shipped `duplicateCheckTimeout = 1500`; the
second submission is a silent no-op and only one entry was created. -/
theorem processFinalResult_dedup_witness :
    (trimText "hello world" ≠ "") ∧
    (trimText "hello world" ∉ activeState.processedTexts) ∧
    (activeState.maxTextLines = 0 ∨
      activeState.textHistory.length + 1 ≤ activeState.maxTextLines) ∧
    ((processFinalResult defaultSpeechConfig 0 3 "hello world" activeState).1.textHistory =
      ({ id := 3, timestamp := 0, originalText := trimText "hello world",
         language := activeState.configLanguage } : HistoryEntry)
        :: activeState.textHistory ∧
    (processFinalResult defaultSpeechConfig 0 3 "hello world" activeState).1.processedTexts =
      trimText "hello world" :: activeState.processedTexts ∧
    Effect.schedule defaultSpeechConfig.duplicateCheckTimeout
        (SchedAct.deleteProcessed (trimText "hello world")) ∈
      (processFinalResult defaultSpeechConfig 0 3 "hello world" activeState).2 ∧
    Effect.textRecognized (trimText "hello world") ∈
      (processFinalResult defaultSpeechConfig 0 3 "hello world" activeState).2 ∧
    processFinalResult defaultSpeechConfig 200 4 "hello world"
        (processFinalResult defaultSpeechConfig 0 3 "hello world" activeState).1 =
      ((processFinalResult defaultSpeechConfig 0 3 "hello world" activeState).1, [])) :=
  ⟨by decide, by decide, by decide,
   processFinalResult_dedup defaultSpeechConfig 0 200 3 4 "hello world" activeState
     (by decide) (by decide) (by decide)⟩

/-- Claim C5 (stop() postcondition and frame): whenever an engine handle
exists, `stop()` publishes `isListening = false` with cleared
`currentText`/`interimText`, reports success, and leaves both the
published and the internal error counters exactly as they were. (With
no engine handle, `stop()` is an immediate successful no-op; that state
only arises before anything was ever published or after `destroy()`'s
own reset, where the fields already hold these values.) -/
theorem stop_postcondition (s : SessionState) (h : s.hasRecognition = true) :
    (stop s).1.recog.isListening = false ∧
    (stop s).1.recog.currentText = "" ∧
    (stop s).1.recog.interimText = "" ∧
    (stop s).1.recog.errorCount = s.recog.errorCount ∧
    (stop s).1.errorCount = s.errorCount ∧
    (stop s).2.2 = true := by
  simp [stop, performFullReset, resetInternalState, resetStateManagerState, h]

/-- Witness for C5: stopping a live session with accumulated text and a
nonzero error counter. -/
theorem stop_postcondition_witness :
    (listeningState.hasRecognition = true) ∧
    ((stop listeningState).1.recog.isListening = false ∧
    (stop listeningState).1.recog.currentText = "" ∧
    (stop listeningState).1.recog.interimText = "" ∧
    (stop listeningState).1.recog.errorCount = listeningState.recog.errorCount ∧
    (stop listeningState).1.errorCount = listeningState.errorCount ∧
    (stop listeningState).2.2 = true) :=
  ⟨by decide, stop_postcondition listeningState (by decide)⟩

/-- Claim C9 (history append): `addTextHistory` always prepends the new
entry (newest first); with a positive cap it truncates to exactly the
cap once exceeded, a cap of 0 leaves the history unbounded; and it
emits `textHistoryChanged` carrying the new entry on every append. -/
theorem addTextHistory_spec (fid : Nat) (now : Int) (txt lang : String)
    (maxLines : Nat) (history : List HistoryEntry) :
    (addTextHistory fid now txt lang maxLines history).1 =
      (if 0 < maxLines ∧ maxLines < history.length + 1
       then (({ id := fid, timestamp := now, originalText := txt,
                language := lang } : HistoryEntry) :: history).take maxLines
       else ({ id := fid, timestamp := now, originalText := txt,
               language := lang } : HistoryEntry) :: history) ∧
    (addTextHistory fid now txt lang maxLines history).1.length =
      (if 0 < maxLines ∧ maxLines < history.length + 1
       then maxLines else history.length + 1) ∧
    (addTextHistory fid now txt lang maxLines history).2 =
      [Effect.textHistoryChanged
        { id := fid, timestamp := now, originalText := txt, language := lang }] := by
  refine ⟨?_, ?_, rfl⟩
  · by_cases hc : 0 < maxLines ∧ maxLines < history.length + 1 <;>
      simp [addTextHistory, hc]
  · by_cases hc : 0 < maxLines ∧ maxLines < history.length + 1
    · simp [addTextHistory, hc]
      omega
    · simp [addTextHistory, hc]

/-- Claim C10 (liveness refresh): every result-callback invocation sets
the internal `lastResultTime` to the current time before the fencing
check, so even a delivery discarded as stale refreshes the watchdog's
liveness timestamp. -/
theorem handleResult_sets_lastResultTime (cfg : SpeechConfig)
    (captured : Option Nat) (items : List ResultItem) (now : Int) (fid : Nat)
    (s : SessionState) :
    (handleResultCore cfg captured items now fid s).1.lastResultTime = now := by
  simp only [handleResultCore]
  split
  · rfl
  · split
    · split
      · rfl
      · rfl
    · rw [processFinalResult_lastResultTime]
      split
      · rfl
      · rfl

/-- Claim C2 (watchdog safe restart): on a watchdog tick while active,
once the time since the last result exceeds `deadTime` or the session
age exceeds `maxSessionTime`, a safe restart runs: it leaves the
controller not recognizing with the watchdog interval cleared (so no
further tick — in particular the next scheduled tick — can fire a
second restart before the engine is restarted), zeroes both error
counters and publishes the zeroed section, and schedules, after
`restartDelay`, the resume body that re-initialises the engine handle,
re-applies the captured current language, and calls `start()` (which
stops the engine and schedules the actual engine start). -/
theorem watchdog_safe_restart (cfg : SpeechConfig) (now : Int) (s : SessionState)
    (hrec : s.isRecognizing = true)
    (hsup : s.engineSupported = true)
    (hto : now - s.lastResultTime > cfg.deadTime ∨
           now - s.sessionStartTime > cfg.maxSessionTime) :
    (watchdogTick cfg now s).1.isRecognizing = false ∧
    (watchdogTick cfg now s).1.hasWatchdog = false ∧
    watchdogTick cfg (now + (cfg.watchdogInterval : Int)) (watchdogTick cfg now s).1 =
      ((watchdogTick cfg now s).1, []) ∧
    (watchdogTick cfg now s).1.errorCount = 0 ∧
    (watchdogTick cfg now s).1.recog.errorCount = 0 ∧
    Effect.recognitionStateChanged (watchdogTick cfg now s).1.recog ∈
      (watchdogTick cfg now s).2 ∧
    Effect.schedule cfg.restartDelay (SchedAct.safeRestartResume s.configLanguage) ∈
      (watchdogTick cfg now s).2 ∧
    (safeRestartTimeoutFire cfg s.configLanguage (watchdogTick cfg now s).1).1.hasRecognition
      = true ∧
    (safeRestartTimeoutFire cfg s.configLanguage (watchdogTick cfg now s).1).1.recognitionLang
      = s.configLanguage ∧
    Effect.engineStop ∈
      (safeRestartTimeoutFire cfg s.configLanguage (watchdogTick cfg now s).1).2 ∧
    Effect.schedule cfg.restartDelay SchedAct.startResume ∈
      (safeRestartTimeoutFire cfg s.configLanguage (watchdogTick cfg now s).1).2 := by
  have hw : watchdogTick cfg now s = safeRestart cfg s := by
    simp [watchdogTick, hrec, hto]
  rw [hw]
  refine ⟨?_, ?_, ?_, ?_, ?_, ?_, ?_, ?_, ?_, ?_, ?_⟩ <;>
    simp [safeRestart, performFullReset, resetInternalState, resetStateManagerState,
      clearInterimReliablyEffects, watchdogTick, safeRestartTimeoutFire,
      initializeRecognition, start, startGo, hsup]

/-- Witness for C2 (Scenario A): shipped configuration, active session
started at t = 0 with no result since; the tick at t = 5001 exceeds
`deadTime = 5000` and fires exactly one safe restart. -/
theorem watchdog_safe_restart_witness :
    (activeState.isRecognizing = true) ∧
    (activeState.engineSupported = true) ∧
    ((5001 : Int) - activeState.lastResultTime > defaultSpeechConfig.deadTime ∨
      (5001 : Int) - activeState.sessionStartTime > defaultSpeechConfig.maxSessionTime) ∧
    ((watchdogTick defaultSpeechConfig 5001 activeState).1.isRecognizing = false ∧
    (watchdogTick defaultSpeechConfig 5001 activeState).1.hasWatchdog = false ∧
    watchdogTick defaultSpeechConfig (5001 + (defaultSpeechConfig.watchdogInterval : Int))
        (watchdogTick defaultSpeechConfig 5001 activeState).1 =
      ((watchdogTick defaultSpeechConfig 5001 activeState).1, []) ∧
    (watchdogTick defaultSpeechConfig 5001 activeState).1.errorCount = 0 ∧
    (watchdogTick defaultSpeechConfig 5001 activeState).1.recog.errorCount = 0 ∧
    Effect.recognitionStateChanged (watchdogTick defaultSpeechConfig 5001 activeState).1.recog ∈
      (watchdogTick defaultSpeechConfig 5001 activeState).2 ∧
    Effect.schedule defaultSpeechConfig.restartDelay
        (SchedAct.safeRestartResume activeState.configLanguage) ∈
      (watchdogTick defaultSpeechConfig 5001 activeState).2 ∧
    (safeRestartTimeoutFire defaultSpeechConfig activeState.configLanguage
        (watchdogTick defaultSpeechConfig 5001 activeState).1).1.hasRecognition = true ∧
    (safeRestartTimeoutFire defaultSpeechConfig activeState.configLanguage
        (watchdogTick defaultSpeechConfig 5001 activeState).1).1.recognitionLang =
      activeState.configLanguage ∧
    Effect.engineStop ∈
      (safeRestartTimeoutFire defaultSpeechConfig activeState.configLanguage
        (watchdogTick defaultSpeechConfig 5001 activeState).1).2 ∧
    Effect.schedule defaultSpeechConfig.restartDelay SchedAct.startResume ∈
      (safeRestartTimeoutFire defaultSpeechConfig activeState.configLanguage
        (watchdogTick defaultSpeechConfig 5001 activeState).1).2) :=
  ⟨rfl, rfl, by decide,
   watchdog_safe_restart defaultSpeechConfig 5001 activeState rfl rfl (by decide)⟩

/-- Claim C4 (error classification and policy): every engine error
increments the error counter and publishes the incremented value; a
critical native code (`not-allowed`, `service-not-allowed`) immediately
stops the controller (manual-stop flag set, deactivation published),
records the fatal error, and leaves no pending restart — nor does the
engine's subsequent `onend` schedule one; a non-critical error stops
the controller exactly when the counter reaches `maxErrorCount`, and
otherwise changes nothing but the counter and emits nothing but its
publication. With the shipped `maxErrorCount = 10`, nine consecutive
`no-speech` errors leave an active controller active and a tenth stops
it. -/
theorem handleError_policy (cfg : SpeechConfig) (err : String) (s : SessionState)
    (hr : s.hasRecognition = true) :
    (handleError cfg err s).1.errorCount = s.errorCount + 1 ∧
    Effect.recognitionStateChanged { s.recog with errorCount := s.errorCount + 1 } ∈
      (handleError cfg err s).2 ∧
    ((err = "not-allowed" ∨ err = "service-not-allowed") →
      (handleError cfg err s).1.manualStop = true ∧
      (handleError cfg err s).1.isRecognizing = false ∧
      (handleError cfg err s).1.recog.isActive = false ∧
      (handleError cfg err s).1.recog.isListening = false ∧
      (handleError cfg err s).1.lastError =
        some { category := "SPEECH_RECOGNITION", code := mapErrorCode err,
               details := some err } ∧
      Effect.errorEvt { category := "SPEECH_RECOGNITION", code := mapErrorCode err,
                        details := some err } ∈ (handleError cfg err s).2 ∧
      schedulesStart (handleError cfg err s).2 = false ∧
      schedulesStart (onEnd cfg (handleError cfg err s).1).2 = false) ∧
    (¬(err = "not-allowed" ∨ err = "service-not-allowed") →
      cfg.maxErrorCount ≤ s.errorCount + 1 →
      (handleError cfg err s).1.manualStop = true ∧
      (handleError cfg err s).1.recog.isActive = false ∧
      (handleError cfg err s).1.recog.isListening = false) ∧
    (¬(err = "not-allowed" ∨ err = "service-not-allowed") →
      s.errorCount + 1 < cfg.maxErrorCount →
      (handleError cfg err s).1 =
        { s with errorCount := s.errorCount + 1,
                 recog := { s.recog with errorCount := s.errorCount + 1 } } ∧
      (handleError cfg err s).2 =
        [Effect.recognitionStateChanged { s.recog with errorCount := s.errorCount + 1 }]) ∧
    ((fun st => (handleError defaultSpeechConfig "no-speech" st).1)^[9]
        activeState).isRecognizing = true ∧
    ((fun st => (handleError defaultSpeechConfig "no-speech" st).1)^[9]
        activeState).recog.isActive = true ∧
    ((fun st => (handleError defaultSpeechConfig "no-speech" st).1)^[9]
        activeState).errorCount = 9 ∧
    ((fun st => (handleError defaultSpeechConfig "no-speech" st).1)^[10]
        activeState).recog.isActive = false ∧
    ((fun st => (handleError defaultSpeechConfig "no-speech" st).1)^[10]
        activeState).manualStop = true := by
  refine ⟨?_, ?_, fun hcrit => ?_, fun hncrit hcnt => ?_, fun hncrit hcnt => ?_,
    by decide, by decide, by decide, by decide, by decide⟩
  · by_cases hcrit : err = "not-allowed" ∨ err = "service-not-allowed"
    · simp [handleError, hcrit, stop, hr, performFullReset, resetInternalState,
        resetStateManagerState]
    · by_cases hcnt : cfg.maxErrorCount ≤ s.errorCount + 1 <;>
        simp [handleError, hcrit, hcnt, stop, hr, performFullReset,
          resetInternalState, resetStateManagerState]
  · by_cases hcrit : err = "not-allowed" ∨ err = "service-not-allowed"
    · simp [handleError, hcrit]
    · by_cases hcnt : cfg.maxErrorCount ≤ s.errorCount + 1 <;>
        simp [handleError, hcrit, hcnt]
  · refine ⟨?_, ?_, ?_, ?_, ?_, ?_, ?_, ?_⟩ <;>
      simp [handleError, hcrit, stop, hr, performFullReset, resetInternalState,
        resetStateManagerState, clearInterimReliablyEffects, onEnd,
        schedulesStart, isStartAct]
  · refine ⟨?_, ?_, ?_⟩ <;>
      simp [handleError, hncrit, hcnt, stop, hr, performFullReset,
        resetInternalState, resetStateManagerState]
  · have hcnt' : ¬ cfg.maxErrorCount ≤ s.errorCount + 1 := not_le.mpr hcnt
    constructor <;>
      simp [handleError, hncrit, hcnt']

/-- Witness for C4: a concrete `not-allowed` error on a live session —
counter incremented and published, immediate stop, fatal record, no
pending restart. -/
theorem handleError_policy_witness :
    (listeningState.hasRecognition = true) ∧
    ((handleError defaultSpeechConfig "not-allowed" listeningState).1.errorCount =
      listeningState.errorCount + 1) ∧
    (("not-allowed" = "not-allowed" ∨ "not-allowed" = "service-not-allowed")) ∧
    ((handleError defaultSpeechConfig "not-allowed" listeningState).1.manualStop = true ∧
     (handleError defaultSpeechConfig "not-allowed" listeningState).1.isRecognizing = false ∧
     (handleError defaultSpeechConfig "not-allowed" listeningState).1.recog.isActive = false ∧
     (handleError defaultSpeechConfig "not-allowed" listeningState).1.recog.isListening = false ∧
     (handleError defaultSpeechConfig "not-allowed" listeningState).1.lastError =
       some { category := "SPEECH_RECOGNITION", code := mapErrorCode "not-allowed",
              details := some "not-allowed" } ∧
     Effect.errorEvt { category := "SPEECH_RECOGNITION", code := mapErrorCode "not-allowed",
                       details := some "not-allowed" } ∈
       (handleError defaultSpeechConfig "not-allowed" listeningState).2 ∧
     schedulesStart (handleError defaultSpeechConfig "not-allowed" listeningState).2 = false ∧
     schedulesStart
       (onEnd defaultSpeechConfig
         (handleError defaultSpeechConfig "not-allowed" listeningState).1).2 = false) :=
  ⟨rfl, (handleError_policy defaultSpeechConfig "not-allowed" listeningState rfl).1,
   Or.inl rfl,
   (handleError_policy defaultSpeechConfig "not-allowed" listeningState rfl).2.2.1
     (Or.inl rfl)⟩

/-- Claim C6 counterexample: `start()` does not reset the manual-stop
flag. From an idle state whose previous `stop()` left `manualStop`
set, `start()` returns with the flag still set — `resetInternalState`
only clears the recognizing flag and the watchdog. -/
theorem start_counterexample :
    manualStopState.isRecognizing = false ∧
    manualStopState.hasRecognition = true ∧
    manualStopState.manualStop = true ∧
    (start defaultSpeechConfig manualStopState).1.manualStop = true := by decide

/-- Claim C6 (amended): with an engine handle present, `start()` on an
already recognizing controller is a no-op returning success; otherwise
it force-stops the live engine handle, resets the recognizing flag and
the watchdog (the manual-stop flag is left as it was; it is cleared
only by the engine's end callback), returns success, and schedules
after `restartDelay` the body that applies `config.language` (with the
`en-US` fallback) to the handle and issues the engine start. -/
theorem start_spec (cfg : SpeechConfig) (s : SessionState)
    (hr : s.hasRecognition = true) :
    (s.isRecognizing = true → start cfg s = (s, [], true)) ∧
    (s.isRecognizing = false →
      (start cfg s).2.2 = true ∧
      (start cfg s).1 = resetInternalState s ∧
      (start cfg s).1.manualStop = s.manualStop ∧
      (start cfg s).2.1 =
        [Effect.engineStop, Effect.schedule cfg.restartDelay SchedAct.startResume] ∧
      startTimeoutFire (start cfg s).1 =
        ({ (start cfg s).1 with recognitionLang := langOrDefault s },
         [Effect.engineStart (langOrDefault s)])) := by
  constructor
  · intro h
    simp [start, startGo, hr, h]
  · intro h
    refine ⟨?_, ?_, ?_, ?_, ?_⟩ <;>
      simp [start, startGo, startTimeoutFire, resetInternalState, hr, h,
        langOrDefault]

/-- Witness for C6 (amended): a plain `start()` from the constructed
idle state. -/
theorem start_spec_witness :
    (idleState.hasRecognition = true) ∧
    (idleState.isRecognizing = false) ∧
    ((start defaultSpeechConfig idleState).2.2 = true ∧
     (start defaultSpeechConfig idleState).1 = resetInternalState idleState ∧
     (start defaultSpeechConfig idleState).1.manualStop = idleState.manualStop ∧
     (start defaultSpeechConfig idleState).2.1 =
       [Effect.engineStop,
        Effect.schedule defaultSpeechConfig.restartDelay SchedAct.startResume] ∧
     startTimeoutFire (start defaultSpeechConfig idleState).1 =
       ({ (start defaultSpeechConfig idleState).1 with
            recognitionLang := langOrDefault idleState },
        [Effect.engineStart (langOrDefault idleState)])) :=
  ⟨rfl, rfl, (start_spec defaultSpeechConfig idleState rfl).2 rfl⟩

/-- Claim C7 counterexample: with `config.language = "en-US"`, calling
`changeLanguage("en-GB")` while idle and then starting: the engine
start that follows runs with `"en-US"`, not with the requested
`"en-GB"` — the scheduled start body re-reads `config.language`,
which `changeLanguage` never updates. -/
theorem changeLanguage_counterexample :
    idleState.isRecognizing = false ∧
    idleState.configLanguage = "en-US" ∧
    (startTimeoutFire (start defaultSpeechConfig
        (changeLanguage defaultSpeechConfig "en-GB" idleState).1).1).2 =
      [Effect.engineStart "en-US"] ∧
    Effect.engineStart "en-GB" ∉
      (startTimeoutFire (start defaultSpeechConfig
        (changeLanguage defaultSpeechConfig "en-GB" idleState).1).1).2 := by decide

/-- Claim C7 (amended): `changeLanguage(lang)` returns success and sets
`lang` directly on the engine handle; if active it stops (via the
manual-stop path) and schedules a `start()` after `restartDelay`; if
idle it changes nothing else. It never updates `config.language`, and
the engine start that eventually follows re-reads `config.language`
(with the `en-US` fallback), so the next engine start runs with `lang`
exactly when `config.language` equals it (the UI updates
`config.language` before calling `changeLanguage`). -/
theorem changeLanguage_spec (cfg : SpeechConfig) (language : String)
    (s : SessionState) (hr : s.hasRecognition = true) :
    (changeLanguage cfg language s).2.2 = true ∧
    (changeLanguage cfg language s).1.recognitionLang = language ∧
    (changeLanguage cfg language s).1.configLanguage = s.configLanguage ∧
    (s.isRecognizing = false →
      (changeLanguage cfg language s).1 = { s with recognitionLang := language } ∧
      (changeLanguage cfg language s).2.1 = []) ∧
    (s.isRecognizing = true →
      (changeLanguage cfg language s).1.manualStop = true ∧
      (changeLanguage cfg language s).1.isRecognizing = false ∧
      (changeLanguage cfg language s).1.recog.isListening = false ∧
      (changeLanguage cfg language s).1.recog.currentText = "" ∧
      Effect.schedule cfg.restartDelay SchedAct.callStart ∈
        (changeLanguage cfg language s).2.1) ∧
    startTimeoutFire (start cfg (changeLanguage cfg language s).1).1 =
      ({ (start cfg (changeLanguage cfg language s).1).1 with
           recognitionLang := langOrDefault s },
       [Effect.engineStart (langOrDefault s)]) := by
  by_cases hwas : s.isRecognizing = true
  · refine ⟨?_, ?_, ?_, fun hidle => absurd hwas (by simp [hidle]), fun _ => ?_, ?_⟩ <;>
      simp [changeLanguage, stop, performFullReset, resetInternalState,
        resetStateManagerState, clearInterimReliablyEffects, start, startGo,
        startTimeoutFire, langOrDefault, hr, hwas]
  · have hidle : s.isRecognizing = false := by simpa using hwas
    refine ⟨?_, ?_, ?_, fun _ => ?_, fun hact => absurd hact hwas, ?_⟩ <;>
      simp [changeLanguage, start, startGo, startTimeoutFire,
        resetInternalState, langOrDefault, hr, hidle]

/-- Witness for C7 (amended): changing the language of a live session. -/
theorem changeLanguage_spec_witness :
    (activeState.hasRecognition = true) ∧
    (activeState.isRecognizing = true) ∧
    ((changeLanguage defaultSpeechConfig "en-GB" activeState).2.2 = true ∧
     (changeLanguage defaultSpeechConfig "en-GB" activeState).1.recognitionLang = "en-GB" ∧
     (changeLanguage defaultSpeechConfig "en-GB" activeState).1.manualStop = true ∧
     Effect.schedule defaultSpeechConfig.restartDelay SchedAct.callStart ∈
       (changeLanguage defaultSpeechConfig "en-GB" activeState).2.1) := by
  have h := changeLanguage_spec defaultSpeechConfig "en-GB" activeState rfl
  exact ⟨rfl, rfl, h.1, h.2.1, (h.2.2.2.2.1 rfl).1, (h.2.2.2.2.1 rfl).2.2.2.2⟩

/-- Looking a key up after setting it yields the new value. -/
lemma jsGetField_setField_self (fields : List (String × JsValue)) (k : String)
    (v : JsValue) : jsGetField (jsSetField fields k v) k = some v := by
  induction fields with
  | nil => simp [jsSetField, jsGetField]
  | cons p rest ih =>
      obtain ⟨k', w⟩ := p
      by_cases h : k' = k
      · simp [jsSetField, jsGetField, h]
      · simp [jsSetField, jsGetField, h, ih]

/-- A nonempty path is always settable in an empty object (every
segment is absent, so containers are created all the way down). -/
lemma pathSettable_obj_nil (a : String) (l : List String) :
    pathSettable (a :: l) (.obj []) = true := by
  cases l <;> simp [pathSettable, jsGetField]

/-- Walking a nonempty path into an empty object reads `undefined`. -/
lemma getStateGo_obj_nil (a : String) (l : List String) :
    getStateGo (a :: l) (.obj []) = .undefined := by
  simp [getStateGo, jsGetField]

/-- Correctness of the `setState` walk: on a settable path it succeeds,
returns the previous leaf value (as `getState` would read it), and the
new tree reads back the written value; on a non-settable path it
fails (the swallowed internal error). -/
lemma setStateGo_correct (segs : List String) (v : JsValue) : ∀ t : JsValue,
    (pathSettable segs t = true →
      ∃ t', setStateGo segs v t = some (t', getStateGo segs t) ∧
            getStateGo segs t' = v) ∧
    (pathSettable segs t = false → setStateGo segs v t = none) := by
  induction segs with
  | nil =>
      intro t
      exact ⟨fun h => absurd h (by simp [pathSettable]),
             fun _ => by simp [setStateGo]⟩
  | cons key rest ih =>
      intro t
      cases rest with
      | nil =>
          cases t
          case obj fields =>
            refine ⟨fun _ => ⟨.obj (jsSetField fields key v), ?_, ?_⟩,
                    fun h => by simp [pathSettable] at h⟩
            · cases hf : jsGetField fields key <;>
                simp [setStateGo, getStateGo, hf]
            · simp [getStateGo, jsGetField_setField_self]
          all_goals
            exact ⟨fun h => by simp [pathSettable] at h,
                   fun _ => by simp [setStateGo]⟩
      | cons seg rest2 =>
          cases t
          case obj fields =>
            cases hf : jsGetField fields key with
            | some child =>
                constructor
                · intro h
                  have hp : pathSettable (seg :: rest2) child = true := by
                    simpa [pathSettable, hf] using h
                  obtain ⟨t', h1, h2⟩ := (ih child).1 hp
                  refine ⟨.obj (jsSetField fields key t'), ?_, ?_⟩
                  · simp [setStateGo, getStateGo, hf, h1]
                  · simp [getStateGo, jsGetField_setField_self, h2]
                · intro h
                  have hp : pathSettable (seg :: rest2) child = false := by
                    simpa [pathSettable, hf] using h
                  simp [setStateGo, hf, (ih child).2 hp]
            | none =>
                constructor
                · intro _
                  obtain ⟨t', h1, h2⟩ :=
                    (ih (.obj [])).1 (pathSettable_obj_nil seg rest2)
                  refine ⟨.obj (jsSetField fields key t'), ?_, ?_⟩
                  · simp [setStateGo, getStateGo, hf, h1, getStateGo_obj_nil,
                      jsGetField]
                  · simp [getStateGo, jsGetField_setField_self, h2]
                · intro h
                  exact absurd h (by simp [pathSettable, hf])
          all_goals
            exact ⟨fun h => by simp [pathSettable] at h,
                   fun _ => by simp [setStateGo]⟩

/-- Claim C8 counterexample: on the tree `{a: "x"}`, `set("a.b", 1)`
hits a primitive segment: the internal error is swallowed — the tree
is unchanged, no `stateChanged` event is emitted, and a subsequent
`get("a.b")` returns `undefined`, not the written value. -/
theorem setState_counterexample :
    (setState "a.b" (JsValue.num 1) (JsValue.obj [("a", JsValue.str "x")])).1 =
      JsValue.obj [("a", JsValue.str "x")] ∧
    (setState "a.b" (JsValue.num 1) (JsValue.obj [("a", JsValue.str "x")])).2 = [] ∧
    getState "a.b"
        (setState "a.b" (JsValue.num 1) (JsValue.obj [("a", JsValue.str "x")])).1 ≠
      JsValue.num 1 := by
  refine ⟨rfl, rfl, ?_⟩
  intro h
  rw [show getState "a.b"
        (setState "a.b" (JsValue.num 1) (JsValue.obj [("a", JsValue.str "x")])).1 =
      JsValue.undefined from rfl] at h
  exact JsValue.noConfusion h

/-- Claim C8 (amended): `set(path, value)` never throws to its caller.
When every segment of the (nonempty) path that already resolves holds
an object — absent segments are created as fresh containers — the leaf
is replaced so that `get(path)` returns the value, and a single
`stateChanged {path, oldValue, newValue}` event fires whose `oldValue`
is the previous leaf value (what `get(path)` returned before). When
some segment holds a primitive, the internal error is swallowed: the
tree is unchanged and no event is emitted. -/
theorem setState_spec (path : String) (value t : JsValue) (hp : path ≠ "") :
    (pathSettable (splitDot path) t = true →
      getState path (setState path value t).1 = value ∧
      (setState path value t).2 =
        [StoreEvt.stateChanged path (getState path t) value]) ∧
    (pathSettable (splitDot path) t = false →
      (setState path value t).1 = t ∧ (setState path value t).2 = []) := by
  constructor
  · intro h
    obtain ⟨t', h1, h2⟩ := (setStateGo_correct (splitDot path) value t).1 h
    simp [setState, h1, getState, hp, h2]
  · intro h
    simp [setState, (setStateGo_correct (splitDot path) value t).2 h]

/-- Witness for C8 (amended): writing `1` at `"a.b"` into the empty
tree creates the intermediate container, reads back `1`, and emits the
event with `oldValue = undefined`. -/
theorem setState_spec_witness :
    ("a.b" ≠ "") ∧
    (pathSettable (splitDot "a.b") (JsValue.obj []) = true) ∧
    (getState "a.b" (setState "a.b" (JsValue.num 1) (JsValue.obj [])).1 =
      JsValue.num 1 ∧
    (setState "a.b" (JsValue.num 1) (JsValue.obj [])).2 =
      [StoreEvt.stateChanged "a.b" (getState "a.b" (JsValue.obj []))
        (JsValue.num 1)]) :=
  ⟨by decide, rfl,
   (setState_spec "a.b" (JsValue.num 1) (JsValue.obj []) (by decide)).1 rfl⟩

end SpeechApp
